import Mathlib

/-!
Shallow embedding of the IndexedJS wrapper (src/src/IndexedJS.js and the
schema/open/in rewrite in src/unnamed/part_000).

JavaScript values are modelled by the inductive `JSValue`; a JS object is an
association list of named fields (`JSObj`); the idiom `x || d` is `jsOr`.
The prototype methods are defined outside any strict-mode scope, so property
writes follow sloppy-mode semantics: writing a property of a primitive value
is a silent no-op, and reading a property of a primitive (other than
null/undefined) yields undefined.
-/

namespace IndexedJS

/-- A JavaScript value, as manipulated by the wrapper.  Functions (callbacks)
are represented opaquely by an identifier. -/
inductive JSValue : Type where
  | undefined : JSValue
  | null : JSValue
  | boolean : Bool → JSValue
  | number : Int → JSValue
  | string : String → JSValue
  | array : List JSValue → JSValue
  | object : List (String × JSValue) → JSValue
  | callback : Nat → JSValue

/-- A JavaScript object: an association list of fields. -/
abbrev JSObj : Type := List (String × JSValue)

/-- JavaScript truthiness.  Arrays and objects are always truthy (in
particular the empty array `[]`). -/
def truthy : JSValue → Bool
  | .undefined => false
  | .null => false
  | .boolean b => b
  | .number n => n != 0
  | .string s => s != ""
  | .array _ => true
  | .object _ => true
  | .callback _ => true

/-- The JavaScript expression `a || b`. -/
def jsOr (a b : JSValue) : JSValue :=
  if truthy a then a else b

/-- Reading field `k` of an object: `o.k`; undefined when absent. -/
def assoc : JSObj → String → JSValue
  | [], _ => .undefined
  | (k', v) :: rest, k => if k' = k then v else assoc rest k

/-- Writing field `k` of an object: `o.k = v`. -/
def setField : JSObj → String → JSValue → JSObj
  | [], k, v => [(k, v)]
  | (k', w) :: rest, k, v =>
      if k' = k then (k', v) :: rest else (k', w) :: setField rest k v

/-- Reading a property of an arbitrary value.  On a primitive (sloppy mode,
base not null/undefined) the result is undefined. -/
def getProp (v : JSValue) (k : String) : JSValue :=
  match v with
  | .object fs => assoc fs k
  | _ => .undefined

/-- Reading an indexed property `v[i]`. -/
def getIdx (v : JSValue) (i : Nat) : JSValue :=
  match v with
  | .array xs => (xs.get? i).getD .undefined
  | .object fs => assoc fs (toString i)
  | _ => .undefined

/-- The JavaScript strict comparison `v === false`. -/
def isStrictFalse : JSValue → Bool
  | .boolean false => true
  | _ => false

/-- The statement `opts.k.sub = opts.k.sub || d` from `verifyOptions`
(`opts` aliases `options`, so the read sees the already-defaulted field).
When `opts.k` is an object the nested field is updated; when it is a
primitive (e.g. the freshly defaulted `false`) the write is a sloppy-mode
no-op.  `opts.k` is never null/undefined at these statements, having just
been defaulted. -/
def setSub (o : JSObj) (k sub : String) (d : JSValue) : JSObj :=
  match assoc o k with
  | .object fs => setField o k (.object (setField fs sub (jsOr (assoc fs sub) d)))
  | _ => o

/-- `IndexedJS.prototype.verifyOptions` (src/src/IndexedJS.js lines 117-136),
for an object argument.  `var opts = options || {}` aliases the argument, so
each line both reads and writes the same object. -/
def verifyOptions (options : JSObj) : JSObj :=
  let o1 := setField options "mode" (jsOr (assoc options "mode") (.string "readonly"))
  let o2 := setField o1 "index" (jsOr (assoc o1 "index") (.boolean false))
  let o3 := setField o2 "key" (jsOr (assoc o2 "key") (.boolean false))
  let o4 := setField o3 "data" (jsOr (assoc o3 "data") (.array []))
  let o5 := setField o4 "cursor" (jsOr (assoc o4 "cursor") (.boolean false))
  let o6 := setSub o5 "cursor" "bound" .null
  let o7 := setSub o6 "cursor" "only" (.boolean false)
  let o8 := setSub o7 "cursor" "lower" (.boolean false)
  let o9 := setSub o8 "cursor" "upper" (.boolean false)
  let o10 := setSub o9 "cursor" "advance" (.boolean false)
  let o11 := setField o10 "onerror" (jsOr (assoc o10 "onerror") (.boolean false))
  let o12 := setField o11 "oncomplete" (jsOr (assoc o11 "oncomplete") (.boolean false))
  setField o12 "onsuccess" (jsOr (assoc o12 "onsuccess") (.boolean false))

theorem assoc_setField_self (o : JSObj) (k : String) (v : JSValue) :
    assoc (setField o k v) k = v := by
  induction o with
  | nil => simp [setField, assoc]
  | cons p rest ih =>
      obtain ⟨k', w⟩ := p
      by_cases h : k' = k
      · simp [setField, assoc, h]
      · simp [setField, assoc, h, ih]

theorem assoc_setField_ne (o : JSObj) {k k' : String} (h : k' ≠ k)
    (v : JSValue) : assoc (setField o k v) k' = assoc o k' := by
  have h2 : k ≠ k' := fun hh => h hh.symm
  induction o with
  | nil => simp [setField, assoc, h2]
  | cons p rest ih =>
      obtain ⟨k0, w⟩ := p
      by_cases h0 : k0 = k
      · subst h0
        simp [setField, assoc, h2]
      · simp only [setField, if_neg h0, assoc]
        by_cases h1 : k0 = k'
        · simp [h1]
        · simp [h1, ih]

theorem assoc_setSub_ne (o : JSObj) {k k' : String} (h : k' ≠ k)
    (sub : String) (d : JSValue) : assoc (setSub o k sub d) k' = assoc o k' := by
  unfold setSub
  cases assoc o k <;> simp [assoc_setField_ne o h]

theorem assoc_setSub_obj (o : JSObj) (k sub : String) (d : JSValue)
    (fs : JSObj) (h : assoc o k = .object fs) :
    assoc (setSub o k sub d) k =
      .object (setField fs sub (jsOr (assoc fs sub) d)) := by
  unfold setSub
  rw [h]
  exact assoc_setField_self o k _

/-- The cumulative effect of verifyOptions lines 125-129 on an object-valued
`opts.cursor`: each cursor sub-field is defaulted in turn. -/
def cursorDefaults (fs : JSObj) : JSObj :=
  let f1 := setField fs "bound" (jsOr (assoc fs "bound") .null)
  let f2 := setField f1 "only" (jsOr (assoc f1 "only") (.boolean false))
  let f3 := setField f2 "lower" (jsOr (assoc f2 "lower") (.boolean false))
  let f4 := setField f3 "upper" (jsOr (assoc f3 "upper") (.boolean false))
  setField f4 "advance" (jsOr (assoc f4 "advance") (.boolean false))

theorem verifyOptions_mode (o : JSObj) :
    assoc (verifyOptions o) "mode" = jsOr (assoc o "mode") (.string "readonly") := by
  simp [verifyOptions, assoc_setField_ne, assoc_setSub_ne, assoc_setField_self]

theorem verifyOptions_index (o : JSObj) :
    assoc (verifyOptions o) "index" = jsOr (assoc o "index") (.boolean false) := by
  simp [verifyOptions, assoc_setField_ne, assoc_setSub_ne, assoc_setField_self]

theorem verifyOptions_key (o : JSObj) :
    assoc (verifyOptions o) "key" = jsOr (assoc o "key") (.boolean false) := by
  simp [verifyOptions, assoc_setField_ne, assoc_setSub_ne, assoc_setField_self]

theorem verifyOptions_data (o : JSObj) :
    assoc (verifyOptions o) "data" = jsOr (assoc o "data") (.array []) := by
  simp [verifyOptions, assoc_setField_ne, assoc_setSub_ne, assoc_setField_self]

theorem verifyOptions_onerror (o : JSObj) :
    assoc (verifyOptions o) "onerror" = jsOr (assoc o "onerror") (.boolean false) := by
  simp [verifyOptions, assoc_setField_ne, assoc_setSub_ne, assoc_setField_self]

theorem verifyOptions_oncomplete (o : JSObj) :
    assoc (verifyOptions o) "oncomplete" = jsOr (assoc o "oncomplete") (.boolean false) := by
  simp [verifyOptions, assoc_setField_ne, assoc_setSub_ne, assoc_setField_self]

theorem verifyOptions_onsuccess (o : JSObj) :
    assoc (verifyOptions o) "onsuccess" = jsOr (assoc o "onsuccess") (.boolean false) := by
  simp [verifyOptions, assoc_setField_ne, assoc_setSub_ne, assoc_setField_self]

theorem setSub_nonobj (o : JSObj) (k sub : String) (d : JSValue)
    (h : ∀ fs, assoc o k ≠ .object fs) : setSub o k sub d = o := by
  unfold setSub
  cases he : assoc o k
  case object fs => exact absurd he (h fs)
  all_goals rfl

theorem assoc_cursor_after_subs (o : JSObj) :
    assoc (setSub (setSub (setSub (setSub (setSub o "cursor" "bound" .null)
      "cursor" "only" (.boolean false)) "cursor" "lower" (.boolean false))
      "cursor" "upper" (.boolean false)) "cursor" "advance" (.boolean false)) "cursor"
    = match assoc o "cursor" with
      | .object fs => .object (cursorDefaults fs)
      | v => v := by
  cases he : assoc o "cursor"
  case object fs =>
    have h1 := assoc_setSub_obj o "cursor" "bound" .null fs he
    have h2 := assoc_setSub_obj _ "cursor" "only" (.boolean false) _ h1
    have h3 := assoc_setSub_obj _ "cursor" "lower" (.boolean false) _ h2
    have h4 := assoc_setSub_obj _ "cursor" "upper" (.boolean false) _ h3
    have h5 := assoc_setSub_obj _ "cursor" "advance" (.boolean false) _ h4
    rw [h5]
    rfl
  all_goals {
    have hno : ∀ fs, assoc o "cursor" ≠ .object fs := by
      intro fs hc
      rw [he] at hc
      simp at hc
    rw [setSub_nonobj o _ _ _ hno, setSub_nonobj o _ _ _ hno,
        setSub_nonobj o _ _ _ hno, setSub_nonobj o _ _ _ hno,
        setSub_nonobj o _ _ _ hno, he] }

theorem verifyOptions_cursor (o : JSObj) :
    assoc (verifyOptions o) "cursor" =
      match jsOr (assoc o "cursor") (.boolean false) with
      | .object fs => .object (cursorDefaults fs)
      | v => v := by
  simp only [verifyOptions]
  rw [assoc_setField_ne _ (by decide), assoc_setField_ne _ (by decide),
      assoc_setField_ne _ (by decide), assoc_cursor_after_subs,
      assoc_setField_self, assoc_setField_ne _ (by decide),
      assoc_setField_ne _ (by decide), assoc_setField_ne _ (by decide),
      assoc_setField_ne _ (by decide)]

theorem cursorDefaults_bound (fs : JSObj) :
    assoc (cursorDefaults fs) "bound" = jsOr (assoc fs "bound") .null := by
  simp [cursorDefaults, assoc_setField_ne, assoc_setField_self]

theorem cursorDefaults_only (fs : JSObj) :
    assoc (cursorDefaults fs) "only" = jsOr (assoc fs "only") (.boolean false) := by
  simp [cursorDefaults, assoc_setField_ne, assoc_setField_self]

theorem cursorDefaults_lower (fs : JSObj) :
    assoc (cursorDefaults fs) "lower" = jsOr (assoc fs "lower") (.boolean false) := by
  simp [cursorDefaults, assoc_setField_ne, assoc_setField_self]

theorem cursorDefaults_upper (fs : JSObj) :
    assoc (cursorDefaults fs) "upper" = jsOr (assoc fs "upper") (.boolean false) := by
  simp [cursorDefaults, assoc_setField_ne, assoc_setField_self]

theorem cursorDefaults_advance (fs : JSObj) :
    assoc (cursorDefaults fs) "advance" = jsOr (assoc fs "advance") (.boolean false) := by
  simp [cursorDefaults, assoc_setField_ne, assoc_setField_self]

/-- C1: for every options object passed to query, add, or delete (including
objects that omit some or all fields), verifyOptions fills each missing field
with its default: mode becomes "readonly"; key, index, cursor, onsuccess,
onerror and oncomplete become false; data becomes the empty array; and when
the cursor field is an object, its missing sub-fields bound, only, lower,
upper and advance become null (bound) or false (the others). -/
theorem verifyOptions_defaults (o : JSObj) :
    (assoc o "mode" = .undefined → assoc (verifyOptions o) "mode" = .string "readonly") ∧
    (assoc o "key" = .undefined → assoc (verifyOptions o) "key" = .boolean false) ∧
    (assoc o "index" = .undefined → assoc (verifyOptions o) "index" = .boolean false) ∧
    (assoc o "cursor" = .undefined → assoc (verifyOptions o) "cursor" = .boolean false) ∧
    (assoc o "onsuccess" = .undefined → assoc (verifyOptions o) "onsuccess" = .boolean false) ∧
    (assoc o "onerror" = .undefined → assoc (verifyOptions o) "onerror" = .boolean false) ∧
    (assoc o "oncomplete" = .undefined → assoc (verifyOptions o) "oncomplete" = .boolean false) ∧
    (assoc o "data" = .undefined → assoc (verifyOptions o) "data" = .array []) ∧
    (∀ fs : JSObj, assoc o "cursor" = .object fs →
      assoc (verifyOptions o) "cursor" = .object (cursorDefaults fs) ∧
      (assoc fs "bound" = .undefined → assoc (cursorDefaults fs) "bound" = .null) ∧
      (assoc fs "only" = .undefined → assoc (cursorDefaults fs) "only" = .boolean false) ∧
      (assoc fs "lower" = .undefined → assoc (cursorDefaults fs) "lower" = .boolean false) ∧
      (assoc fs "upper" = .undefined → assoc (cursorDefaults fs) "upper" = .boolean false) ∧
      (assoc fs "advance" = .undefined → assoc (cursorDefaults fs) "advance" = .boolean false)) := by
  refine ⟨?_, ?_, ?_, ?_, ?_, ?_, ?_, ?_, ?_⟩
  · intro h
    rw [verifyOptions_mode, h]
    rfl
  · intro h
    rw [verifyOptions_key, h]
    rfl
  · intro h
    rw [verifyOptions_index, h]
    rfl
  · intro h
    rw [verifyOptions_cursor, h]
    rfl
  · intro h
    rw [verifyOptions_onsuccess, h]
    rfl
  · intro h
    rw [verifyOptions_onerror, h]
    rfl
  · intro h
    rw [verifyOptions_oncomplete, h]
    rfl
  · intro h
    rw [verifyOptions_data, h]
    rfl
  · intro fs h
    refine ⟨?_, ?_, ?_, ?_, ?_, ?_⟩
    · rw [verifyOptions_cursor, h]
      rfl
    · intro hb
      rw [cursorDefaults_bound, hb]
      rfl
    · intro hb
      rw [cursorDefaults_only, hb]
      rfl
    · intro hb
      rw [cursorDefaults_lower, hb]
      rfl
    · intro hb
      rw [cursorDefaults_upper, hb]
      rfl
    · intro hb
      rw [cursorDefaults_advance, hb]
      rfl

/-- Witness for C1: the empty options object gets every default, and an
options object whose cursor is the empty object gets every cursor sub-field
default. -/
theorem verifyOptions_defaults_witness :
    (assoc (verifyOptions []) "mode" = .string "readonly" ∧
     assoc (verifyOptions []) "key" = .boolean false ∧
     assoc (verifyOptions []) "cursor" = .boolean false ∧
     assoc (verifyOptions []) "data" = .array []) ∧
    (assoc (verifyOptions [("cursor", .object [])]) "cursor" =
        .object (cursorDefaults []) ∧
     assoc (cursorDefaults []) "bound" = .null ∧
     assoc (cursorDefaults []) "advance" = .boolean false) := by
  have h1 := verifyOptions_defaults []
  have h2 := verifyOptions_defaults [("cursor", .object [])]
  have hc := h2.2.2.2.2.2.2.2.2 [] rfl
  exact ⟨⟨h1.1 rfl, h1.2.1 rfl, h1.2.2.2.1 rfl, h1.2.2.2.2.2.2.2.1 rfl⟩,
    ⟨hc.1, hc.2.1 rfl, hc.2.2.2.2.2 rfl⟩⟩

/-- The key-range / open-cursor call shape built by the cursor branch of
`IndexedJS.prototype.query` (src/src/IndexedJS.js lines 192-222). -/
inductive CursorRange : Type where
  | noRange : CursorRange
  | only : JSValue → CursorRange
  | keyBound : JSValue → JSValue → Bool → Bool → CursorRange
  | lowerBound : JSValue → Bool → CursorRange
  | upperBound : JSValue → Bool → CursorRange

/-- The include-normalisation at src/src/IndexedJS.js lines 181-190.
`typeof x === "object"` holds for arrays, plain objects and null; on null the
subsequent `.length` read throws (modelled as `none`).  An array of length 0
or 1 is padded with `false`; an object is changed only if it carries a
numeric `length` field of 0 or 1; any other value is replaced by
`x || false`. -/
def normalizeInclude (inc : JSValue) : Option JSValue :=
  match inc with
  | .null => none
  | .array xs =>
      if xs.length = 0 then some (.array [.boolean false, .boolean false])
      else if xs.length = 1 then some (.array (xs ++ [.boolean false]))
      else some (.array xs)
  | .object fs =>
      match assoc fs "length" with
      | .number 0 => some (.object (setField (setField fs "0" (.boolean false))
          "1" (.boolean false)))
      | .number 1 => some (.object (setField fs "1" (.boolean false)))
      | _ => some (.object fs)
  | v => some (jsOr v (.boolean false))

/-- The cursor branch of `IndexedJS.prototype.query` (lines 173-222): after
normalising `cursor.include`, choose the key range.  `none` models the
TypeError thrown when `cursor.include` is null. -/
def cursorDispatch (cursor : JSValue) : Option CursorRange :=
  match normalizeInclude (getProp cursor "include") with
  | none => none
  | some inc =>
      some (
        if isStrictFalse (getProp cursor "bound") then .noRange
        else if truthy (getProp cursor "only") then .only (getProp cursor "only")
        else if truthy (getProp cursor "lower") && truthy (getProp cursor "upper") then
          .keyBound (getProp cursor "lower") (getProp cursor "upper")
            (! truthy (getIdx inc 0)) (! truthy (getIdx inc 1))
        else if truthy (getProp cursor "lower") then
          .lowerBound (getProp cursor "lower") (! truthy inc)
        else if truthy (getProp cursor "upper") then
          .upperBound (getProp cursor "upper") (! truthy inc)
        else .noRange)

/-- C3: for every cursor specification whose inclusion-flag field is absent,
a boolean, or an array (the shapes the wrapper documents), the dispatcher
builds exactly one range/call shape, chosen exactly as the claim states:
bound === false gives no key range; otherwise a set `only` gives only(only);
otherwise lower and upper give bound(lower, upper) whose openness flags are
the negations of the first and second inclusion flags; otherwise lower alone
gives lowerBound(lower, !include); otherwise upper alone gives
upperBound(upper, !include); otherwise no key range. -/
theorem cursorDispatch_shape (c : JSValue)
    (h : getProp c "include" = .undefined ∨
         (∃ b, getProp c "include" = .boolean b) ∨
         ∃ xs, getProp c "include" = .array xs) :
    cursorDispatch c = some (
      if isStrictFalse (getProp c "bound") then .noRange
      else if truthy (getProp c "only") then .only (getProp c "only")
      else if truthy (getProp c "lower") && truthy (getProp c "upper") then
        .keyBound (getProp c "lower") (getProp c "upper")
          (! truthy (getIdx (getProp c "include") 0))
          (! truthy (getIdx (getProp c "include") 1))
      else if truthy (getProp c "lower") then
        .lowerBound (getProp c "lower") (! truthy (getProp c "include"))
      else if truthy (getProp c "upper") then
        .upperBound (getProp c "upper") (! truthy (getProp c "include"))
      else .noRange) := by
  rcases h with h | ⟨b, h⟩ | ⟨xs, h⟩
  · rw [cursorDispatch, h]
    simp [normalizeInclude, jsOr, truthy, getIdx]
  · rw [cursorDispatch, h]
    cases b <;> simp [normalizeInclude, jsOr, truthy, getIdx]
  · rw [cursorDispatch, h]
    rcases xs with _ | ⟨a, _ | ⟨b, t⟩⟩ <;>
      simp [normalizeInclude, jsOr, truthy, getIdx]

/-- Witness for C3: a two-sided range with a single inclusion flag [true]
yields bound(1, 9) with the lower end closed (openness false) and the upper
end open (openness true). -/
theorem cursorDispatch_shape_witness :
    cursorDispatch (.object [("lower", .number 1), ("upper", .number 9),
        ("include", .array [.boolean true])]) =
      some (.keyBound (.number 1) (.number 9) false true) := by
  have h := cursorDispatch_shape (.object [("lower", .number 1),
    ("upper", .number 9), ("include", .array [.boolean true])])
    (Or.inr (Or.inr ⟨[.boolean true], rfl⟩))
  rw [h]
  rfl

/-- The native operation performed by `IndexedJS.prototype.query`
(src/src/IndexedJS.js lines 145-291). -/
inductive QueryAction : Type where
  | missingSearch : QueryAction
  | noDb : QueryAction
  | cursorIterate : CursorRange → QueryAction
  | includeFault : QueryAction
  | keyGet : JSValue → QueryAction
  | indexGet : JSValue → QueryAction
  | noStrategy : QueryAction

/-- What `query` sets up: the native call it makes and which handlers it
assigns.  The source assigns `cursor.onsuccess` / `request.onsuccess` and
`transaction.oncomplete` in its two strategy branches; it never assigns any
`onerror` handler. -/
structure QuerySetup : Type where
  action : QueryAction
  onsuccessInstalled : Bool
  oncompleteInstalled : Bool
  onerrorInstalled : Bool

/-- `IndexedJS.prototype.query`.  `missingSearch` is the early
`return false` when no search value is given; `noDb` is the silent fall
through when `IndexedJS.db` is unset; `includeFault` is the TypeError thrown
by the include normalisation on a null include; `noStrategy` is the
(unreachable) fall-through where neither branch of the inner chain fires. -/
def querySetup (dbOpen : Bool) (queryOptions : JSObj) : QuerySetup :=
  let options := verifyOptions queryOptions
  let key := assoc options "key"
  let index := assoc options "index"
  let cursor := assoc options "cursor"
  if ! (truthy key || truthy index || truthy cursor) then
    ⟨.missingSearch, false, false, false⟩
  else if ! dbOpen then ⟨.noDb, false, false, false⟩
  else if truthy cursor then
    match cursorDispatch cursor with
    | none => ⟨.includeFault, false, false, false⟩
    | some r => ⟨.cursorIterate r, true, true, false⟩
  else if truthy key || truthy index then
    if truthy key then ⟨.keyGet key, true, true, false⟩
    else ⟨.indexGet index, true, true, false⟩
  else ⟨.noStrategy, false, false, false⟩

/-- The native call `query` performs. -/
def queryOp (dbOpen : Bool) (queryOptions : JSObj) : QueryAction :=
  (querySetup dbOpen queryOptions).action

/-- Whether a query action is an outcome of the cursor branch. -/
def isCursorOutcome : QueryAction → Bool
  | .cursorIterate _ => true
  | .includeFault => true
  | _ => false

/-- How many of the three selection strategies a query action executes. -/
def strategyCount : QueryAction → Nat
  | .cursorIterate _ => 1
  | .includeFault => 1
  | .keyGet _ => 1
  | .indexGet _ => 1
  | _ => 0

/-- C2 counterexample: for an options object that supplies both an exact key
and an index lookup (and no cursor), query executes the exact-key strategy,
not the index lookup — so the claimed precedence "index overrides key" fails
on this input. -/
theorem query_precedence_cex :
    queryOp true [("key", .string "k"), ("index", .object [("nm", .string "v")])]
        = .keyGet (.string "k") ∧
    queryOp true [("key", .string "k"), ("index", .object [("nm", .string "v")])]
        ≠ .indexGet (.object [("nm", .string "v")]) := by
  refine ⟨rfl, ?_⟩
  intro h
  exact QueryAction.noConfusion h

/-- C2 amended: at most one selection strategy is executed, with precedence
cursor over exact key over index: a cursor specification overrides both, and
an exact key overrides an index lookup. -/
theorem query_precedence (o : JSObj) :
    (∀ d : Bool, strategyCount (queryOp d o) ≤ 1) ∧
    (truthy (assoc (verifyOptions o) "cursor") = true →
      isCursorOutcome (queryOp true o) = true) ∧
    (truthy (assoc (verifyOptions o) "cursor") = false →
      truthy (assoc (verifyOptions o) "key") = true →
      queryOp true o = .keyGet (assoc (verifyOptions o) "key")) ∧
    (truthy (assoc (verifyOptions o) "cursor") = false →
      truthy (assoc (verifyOptions o) "key") = false →
      truthy (assoc (verifyOptions o) "index") = true →
      queryOp true o = .indexGet (assoc (verifyOptions o) "index")) := by
  refine ⟨?_, ?_, ?_, ?_⟩
  · intro d
    cases h : queryOp d o <;> simp [strategyCount]
  · intro hc
    unfold queryOp querySetup
    simp only [hc, Bool.or_true, Bool.not_true, Bool.false_eq_true, if_false,
      Bool.not_false, if_true]
    cases hd : cursorDispatch (assoc (verifyOptions o) "cursor") <;>
      simp [hd, isCursorOutcome]
  · intro hc hk
    unfold queryOp querySetup
    simp [hc, hk]
  · intro hc hk hi
    unfold queryOp querySetup
    simp [hc, hk, hi]

/-- Witness for C2: an options object carrying only a key (no cursor, no
index) runs the exact-key lookup. -/
theorem query_precedence_witness :
    queryOp true [("key", .string "a")] = .keyGet (.string "a") :=
  (query_precedence [("key", .string "a")]).2.2.1 rfl rfl

/-- Per-instance state of an IndexedJS object (src/src/IndexedJS.js
constructor): the configured database name and the `this.db` field, which the
constructor sets to null and which no method ever writes again. -/
structure Instance : Type where
  database : String
  thisDb : JSValue

/-- State attached to the `IndexedJS` constructor function itself: the
`IndexedJS.db` property written by `open`'s success handler (line 94) and
read by `query`, `add` and `delete` (lines 161-162, 314-315, 367-368). -/
structure CtorState : Type where
  db : JSValue

/-- `request.onsuccess` of `IndexedJS.prototype.open` (lines 93-99): it
assigns `IndexedJS.db = e.target.result`, a property of the constructor, and
ignores which instance issued the open. -/
def openOnSuccess (_g : CtorState) (_self : Instance) (result : JSValue) :
    CtorState :=
  ⟨result⟩

/-- The database handle that `query`, `add` and `delete` consult
(`IndexedJS.db`): it does not depend on the instance. -/
def opDbHandle (g : CtorState) (_self : Instance) : JSValue :=
  g.db

/-- C4 counterexample: instance A opens its database (handle 1), then
instance B opens its database (handle 2); afterwards A's operations use
handle 2, not the handle A's open produced — opening B's database changed
the handle A uses. -/
theorem shared_db_cex :
    (let instA : Instance := ⟨"dbA", .null⟩
     let instB : Instance := ⟨"dbB", .null⟩
     let g1 := openOnSuccess ⟨.undefined⟩ instA (.number 1)
     let g2 := openOnSuccess g1 instB (.number 2)
     opDbHandle g1 instA = .number 1 ∧
     opDbHandle g2 instA = .number 2 ∧
     opDbHandle g2 instA ≠ .number 1) := by
  refine ⟨rfl, rfl, ?_⟩
  intro h
  have h2 := JSValue.number.inj h
  simp at h2

/-- C4 amended: the opened-database reference is not per-instance but shared
through a property of the `IndexedJS` constructor: after any instance's open
succeeds, every instance's query/add/delete uses that latest handle, the
write does not depend on which instance opened, and the per-instance
`this.db` field is untouched. -/
theorem db_handle_shared (g : CtorState) (a b : Instance) (r : JSValue) :
    opDbHandle (openOnSuccess g b r) a = r ∧
    opDbHandle (openOnSuccess g b r) a = opDbHandle (openOnSuccess g b r) b ∧
    openOnSuccess g b r = openOnSuccess g a r ∧
    (openOnSuccess g b r).db = r := by
  exact ⟨rfl, rfl, rfl, rfl⟩

/-- What an error handler does with the native error event `e` (identified by
a number): call a user callback with the very same event, or log. -/
inductive ErrEffect : Type where
  | callOnError : JSValue → Nat → ErrEffect
  | logErrorCode : ErrEffect

/-- `request.onerror` of `IndexedJS.prototype.open` (lines 101-106): always
logs `request.errorCode`, then forwards the event unchanged when a callback
was supplied. -/
def openRequestOnError (onerror : JSValue) (e : Nat) : List ErrEffect :=
  .logErrorCode :: (if truthy onerror then [.callOnError onerror e] else [])

/-- `request.onerror` of `IndexedJS.prototype.add` (lines 327-333): forwards
the event unchanged when a callback was supplied, logs otherwise. -/
def addRequestOnError (onerror : JSValue) (e : Nat) : List ErrEffect :=
  if truthy onerror then [.callOnError onerror e] else [.logErrorCode]

/-- `request.onerror` of `IndexedJS.prototype.delete` (lines 372-378): same
shape as add's. -/
def deleteRequestOnError (onerror : JSValue) (e : Nat) : List ErrEffect :=
  if truthy onerror then [.callOnError onerror e] else [.logErrorCode]

/-- C5 counterexample: a query with a user-supplied onerror callback installs
no error handler at all — `query` assigns only success and complete handlers
(lines 225-252 and 271-285) — so a native request error during a query is
neither forwarded to the callback nor logged by the wrapper, refuting the
claim for the query operation. -/
theorem query_error_cex :
    truthy (assoc (verifyOptions [("key", .number 1), ("onerror", .callback 7)])
        "onerror") = true ∧
    (querySetup true [("key", .number 1), ("onerror", .callback 7)]).onerrorInstalled
        = false := by
  exact ⟨rfl, rfl⟩

/-- C5 amended: when the native request fires an error event, add and delete
forward it unchanged to the user-supplied onerror callback if one was
provided and log it otherwise; open always logs and additionally forwards it
unchanged if a callback was provided; query installs no error handler, so
its request errors are neither forwarded nor logged by the wrapper.  No
handler issues any further request (an error handler's effects are only
callback calls and logging), so no operation retries. -/
theorem error_forwarding (cb : JSValue) (e : Nat) (h : truthy cb = true) :
    addRequestOnError cb e = [.callOnError cb e] ∧
    deleteRequestOnError cb e = [.callOnError cb e] ∧
    openRequestOnError cb e = [.logErrorCode, .callOnError cb e] ∧
    (∀ nb : JSValue, truthy nb = false →
      addRequestOnError nb e = [.logErrorCode] ∧
      deleteRequestOnError nb e = [.logErrorCode] ∧
      openRequestOnError nb e = [.logErrorCode]) ∧
    (∀ (d : Bool) (o : JSObj), (querySetup d o).onerrorInstalled = false) := by
  refine ⟨?_, ?_, ?_, ?_, ?_⟩
  · simp [addRequestOnError, h]
  · simp [deleteRequestOnError, h]
  · simp [openRequestOnError, h]
  · intro nb hnb
    refine ⟨?_, ?_, ?_⟩
    · simp [addRequestOnError, hnb]
    · simp [deleteRequestOnError, hnb]
    · simp [openRequestOnError, hnb]
  · intro d o
    simp only [querySetup]
    repeat' split
    all_goals rfl

/-- Witness for C5: a concrete truthy callback. -/
theorem error_forwarding_witness :
    addRequestOnError (.callback 3) 11 = [.callOnError (.callback 3) 11] ∧
    openRequestOnError (.callback 3) 11 =
      [.logErrorCode, .callOnError (.callback 3) 11] := by
  have h := error_forwarding (.callback 3) 11 rfl
  exact ⟨h.1, h.2.2.1⟩

/-- A store definition from the schema (src/unnamed/part_000: an element of
`schema.stores`; src/src/IndexedJS.js: the keyPath/autoIncrement/indexes
options of the single configured store).  Per the data model a store's name
is a string; the other fields are raw JavaScript values. -/
structure StoreDef : Type where
  name : String
  keyPath : JSValue
  autoIncrement : JSValue
  indexes : JSValue

/-- `setKeyOption` (src/unnamed/part_000 lines 64-74), and identically the
`setKey` computation in `IndexedJS.prototype.open` (src/src/IndexedJS.js
lines 48-59): a key path wins over auto-increment, and the returned creation
option carries only the chosen strategy. -/
def setKeyOption (options : StoreDef) : JSValue :=
  if truthy options.keyPath then .object [("keyPath", options.keyPath)]
  else if truthy options.autoIncrement then .object [("autoIncrement", .boolean true)]
  else .boolean false

/-- C6: the two key strategies are mutually exclusive at store creation: the
creation option never carries both a keyPath and an autoIncrement flag, and
when a definition supplies both, the option is the key path alone — the
autoIncrement flag is absent from the object passed to the native creation
call. -/
theorem setKeyOption_exclusive (s : StoreDef)
    (hk : truthy s.keyPath = true) (ha : truthy s.autoIncrement = true) :
    setKeyOption s = .object [("keyPath", s.keyPath)] ∧
    getProp (setKeyOption s) "autoIncrement" = .undefined ∧
    (∀ t : StoreDef, ¬ (truthy (getProp (setKeyOption t) "keyPath") = true ∧
        truthy (getProp (setKeyOption t) "autoIncrement") = true)) := by
  refine ⟨by simp [setKeyOption, hk], by simp [setKeyOption, hk, getProp, assoc], ?_⟩
  intro t ⟨h1, h2⟩
  unfold setKeyOption at h1 h2
  by_cases hp : truthy t.keyPath = true
  · rw [if_pos hp] at h2
    simp [getProp, assoc, truthy] at h2
  · rw [if_neg hp] at h1
    by_cases hq : truthy t.autoIncrement = true
    · rw [if_pos hq] at h1
      simp [getProp, assoc, truthy] at h1
    · rw [if_neg hq] at h1
      simp [getProp, truthy] at h1

/-- Witness for C6: a definition supplying both keyPath "id" and
autoIncrement true creates with the key path alone. -/
theorem setKeyOption_exclusive_witness :
    setKeyOption ⟨"s", .string "id", .boolean true, .undefined⟩ =
        .object [("keyPath", .string "id")] ∧
    getProp (setKeyOption ⟨"s", .string "id", .boolean true, .undefined⟩)
        "autoIncrement" = .undefined := by
  have h := setKeyOption_exclusive ⟨"s", .string "id", .boolean true, .undefined⟩ rfl rfl
  exact ⟨h.1, h.2.1⟩

/-- Native calls performed by the `onupgradeneeded` handlers. -/
inductive UpgradeEffect : Type where
  | deleteStore : String → UpgradeEffect
  | createStore : String → JSValue → UpgradeEffect
  | createIndexOn : String → String → JSValue → UpgradeEffect

/-- The enumerable own properties walked by `for (var key in ...)`: the
fields of an object, the elements of an array (keyed by index); primitives
enumerate nothing. -/
def enumProps : JSValue → List (String × JSValue)
  | .object fs => fs
  | .array xs => xs.enum.map (fun p => (toString p.1, p.2))
  | _ => []

/-- The index-creation loop of the upgrade handlers (src/src/IndexedJS.js
lines 83-88, src/unnamed/part_000 lines 106-111): for each enumerable
property of `indexes`, call `objStore.createIndex(key, key, ...)`.  `target`
is the value of the function-scoped `objStore` variable; when it is
undefined and at least one property is enumerated, the first call throws a
TypeError (second component true) and nothing is created. -/
def createIndexes (target : Option String) (indexes : JSValue) :
    List UpgradeEffect × Bool :=
  if truthy indexes then
    match target, enumProps indexes with
    | _, [] => ([], false)
    | none, _ :: _ => ([], true)
    | some t, props => (props.map (fun p => .createIndexOn t p.1 p.2), false)
  else ([], false)

/-- Result of processing one store definition in part_000's upgrade loop. -/
structure StepOut : Type where
  effects : List UpgradeEffect
  existing : List String
  objStore : Option String
  faulted : Bool

/-- One iteration of the store loop in part_000's `onupgradeneeded` handler
(lines 91-113); the single-store handler of src/src/IndexedJS.js lines 65-91
is this step with `objStore` initially undefined.  An existing store of the
same name is deleted; the store is recreated only when `setKeyOption` is
truthy, in which case the function-scoped `objStore` is reassigned;
otherwise `objStore` keeps its previous value while the index loop runs. -/
def upgradeStep (s : StoreDef) (ex : List String) (objStore : Option String) :
    StepOut :=
  let delEff : List UpgradeEffect :=
    if s.name ∈ ex then [.deleteStore s.name] else []
  let ex1 := ex.filter (fun n => n ≠ s.name)
  let setKey := setKeyOption s
  if truthy setKey then
    let idx := createIndexes (some s.name) s.indexes
    ⟨delEff ++ [.createStore s.name setKey] ++ idx.1, s.name :: ex1,
      some s.name, idx.2⟩
  else
    let idx := createIndexes objStore s.indexes
    ⟨delEff ++ idx.1, ex1, objStore, idx.2⟩

/-- The whole store loop: iterate `upgradeStep`; a thrown TypeError aborts
the remaining iterations. -/
def runUpgrade : List StoreDef → List String → Option String →
    List UpgradeEffect × Bool
  | [], _, _ => ([], false)
  | s :: rest, ex, ob =>
      let st := upgradeStep s ex ob
      if st.faulted then (st.effects, true)
      else
        let r := runUpgrade rest st.existing st.objStore
        (st.effects ++ r.1, r.2)

theorem createIndexes_some (t : String) (idx : JSValue)
    (hi : truthy idx = true) :
    createIndexes (some t) idx
      = ((enumProps idx).map (fun p => UpgradeEffect.createIndexOn t p.1 p.2),
         false) := by
  unfold createIndexes
  rw [if_pos hi]
  cases hp : enumProps idx with
  | nil => simp
  | cons a l => rfl

theorem createIndexes_none_fault (idx : JSValue) (hi : truthy idx = true)
    (hne : enumProps idx ≠ []) :
    createIndexes none idx = ([], true) := by
  unfold createIndexes
  rw [if_pos hi]
  cases hp : enumProps idx with
  | nil => exact absurd hp hne
  | cons a l => rfl

theorem createIndexes_shape (ob : Option String) (idx : JSValue) :
    ∀ e ∈ (createIndexes ob idx).1, ∃ t k u, e = UpgradeEffect.createIndexOn t k u := by
  intro e he
  unfold createIndexes at he
  by_cases hi : truthy idx = true
  · rw [if_pos hi] at he
    cases ob with
    | none =>
        cases hp : enumProps idx with
        | nil =>
            rw [hp] at he
            simp at he
        | cons a l =>
            rw [hp] at he
            simp at he
    | some t =>
        cases hp : enumProps idx with
        | nil =>
            rw [hp] at he
            simp at he
        | cons a l =>
            rw [hp] at he
            simp only [List.mem_map] at he
            obtain ⟨p, _, hp2⟩ := he
            exact ⟨t, p.1, p.2, hp2.symm⟩
  · rw [if_neg hi] at he
    simp at he

/-- C9 counterexample: a schema whose first definition creates store "a"
(key path "id") and whose second definition "b" supplies neither key
strategy but declares an index.  The upgrade loop does not fault: because
the function-scoped `objStore` still holds store "a", the index for "b" is
created on the already-defined store "a" — not on an undefined store object
as the claim states. -/
theorem upgrade_nokey_cex :
    runUpgrade [⟨"a", .string "id", .undefined, .undefined⟩,
        ⟨"b", .undefined, .undefined, .object [("x", .boolean true)]⟩] [] none
      = ([.createStore "a" (.object [("keyPath", .string "id")]),
          .createIndexOn "a" "x" (.boolean true)], false) ∧
    (runUpgrade [⟨"a", .string "id", .undefined, .undefined⟩,
        ⟨"b", .undefined, .undefined, .object [("x", .boolean true)]⟩] [] none).2
      = false := by
  exact ⟨rfl, rfl⟩

/-- C9 amended: for a store definition with neither keyPath nor
autoIncrement, an existing store of that name is deleted and no store is
recreated in its place, and the step leaves the function-scoped `objStore`
variable untouched; if such a definition declares indexes, index creation is
invoked on whatever `objStore` holds: when no earlier definition in the same
upgrade created a store this is undefined and the handler faults with an
unhandled TypeError, and otherwise the indexes are silently created on the
store created for an earlier definition. -/
theorem upgrade_nokey (s : StoreDef) (ex : List String) (ob : Option String)
    (hk : truthy s.keyPath = false) (ha : truthy s.autoIncrement = false) :
    (upgradeStep s ex ob).effects
        = (if s.name ∈ ex then [UpgradeEffect.deleteStore s.name] else [])
          ++ (createIndexes ob s.indexes).1 ∧
    (∀ k, UpgradeEffect.createStore s.name k ∉ (upgradeStep s ex ob).effects) ∧
    s.name ∉ (upgradeStep s ex ob).existing ∧
    (upgradeStep s ex ob).objStore = ob ∧
    (truthy s.indexes = true → enumProps s.indexes ≠ [] → ob = none →
      (upgradeStep s ex ob).faulted = true) ∧
    (∀ t, ob = some t → truthy s.indexes = true →
      ∀ p ∈ enumProps s.indexes,
        UpgradeEffect.createIndexOn t p.1 p.2 ∈ (upgradeStep s ex ob).effects) := by
  have hsk : setKeyOption s = .boolean false := by
    simp [setKeyOption, hk, ha]
  refine ⟨?_, ?_, ?_, ?_, ?_, ?_⟩
  · simp [upgradeStep, hsk, truthy]
  · intro k hmem
    simp only [upgradeStep, hsk, truthy, Bool.false_eq_true, if_false] at hmem
    rcases List.mem_append.1 hmem with hm | hm
    · split at hm
      · simp at hm
      · simp at hm
    · obtain ⟨t, k2, u, he⟩ := createIndexes_shape ob s.indexes _ hm
      exact UpgradeEffect.noConfusion he
  · simp [upgradeStep, hsk, truthy, List.mem_filter]
  · simp [upgradeStep, hsk, truthy]
  · intro hi hne hob
    subst hob
    simp only [upgradeStep, hsk, truthy, Bool.false_eq_true, if_false]
    rw [createIndexes_none_fault s.indexes hi hne]
  · intro t hob hi p hp
    subst hob
    simp only [upgradeStep, hsk, truthy, Bool.false_eq_true, if_false]
    refine List.mem_append.2 (Or.inr ?_)
    rw [createIndexes_some t s.indexes hi]
    simp only [List.mem_map]
    exact ⟨p, hp, rfl⟩

/-- Witness for C9 (amended): the single definition "b" with an index and no
key strategy, processed with `objStore` undefined and store "b" existing:
the store is deleted, nothing is recreated, and the handler faults. -/
theorem upgrade_nokey_witness :
    (upgradeStep ⟨"b", .undefined, .undefined, .object [("x", .boolean true)]⟩
        ["b"] none).faulted = true ∧
    (upgradeStep ⟨"b", .undefined, .undefined, .object [("x", .boolean true)]⟩
        ["b"] none).effects
      = [.deleteStore "b"] := by
  have h := upgrade_nokey ⟨"b", .undefined, .undefined, .object [("x", .boolean true)]⟩
    ["b"] none rfl rfl
  refine ⟨h.2.2.2.2.1 rfl (by simp [enumProps]) rfl, ?_⟩
  rw [h.1]
  rfl

/-- `typeof v === "string"` for the `in` argument check. -/
def isStringV : JSValue → Bool
  | .string _ => true
  | _ => false

/-- `Array.isArray(v)`. -/
def isArrayV : JSValue → Bool
  | .array _ => true
  | _ => false

/-- `IndexedJS.prototype.in` (src/unnamed/part_000 lines 135-164).
`_prevIn` is the previous `this._in`, overwritten by the unconditional
`this._in = []` on entry.  The guard rejects falsy values (including the
empty string) and non-string non-array values with `return false`; a string
is wrapped in a one-element array; each requested element is kept exactly
when it strictly equals the name of some schema store.  The Bool result is
true when the method returns `this`. -/
def inOp (_prevIn : List String) (schemaStores : List StoreDef)
    (stores : JSValue) : List String × Bool :=
  if !truthy stores || !(isArrayV stores || isStringV stores) then ([], false)
  else
    let arr : List JSValue :=
      match stores with
      | .string s => [.string s]
      | .array xs => xs
      | _ => []
    (arr.filterMap (fun v =>
      match v with
      | .string s =>
          if schemaStores.any (fun g => g.name == s) then some s else none
      | _ => none), true)

/-- C7 counterexample: with a schema that declares a store named "" (the
schema validator allows any string name), the call in("") — a string
argument — does not store the matching requested name: the empty string is
falsy, so the guard returns false and the active store set stays empty,
where the claim requires it to hold [""]. -/
theorem in_cex :
    inOp [] [⟨"", .undefined, .undefined, .undefined⟩] (.string "") = ([], false) ∧
    (inOp [] [⟨"", .undefined, .undefined, .undefined⟩] (.string "")).1 ≠ [""] := by
  refine ⟨rfl, ?_⟩
  intro h
  exact List.noConfusion h

/-- C7 amended: every call of in(stores) first resets the active store set
(the result never depends on the previous set); for a nonempty string or an
array argument it then stores exactly those requested names, in request
order, that strictly equal the name of some schema store (others are
silently dropped); for an argument that is neither a string nor an array —
or that is the empty string, which the falsy-check rejects — in returns
false with the store set left empty. -/
theorem in_behavior (p : List String) (g : List StoreDef) (v : JSValue) :
    inOp p g v = inOp [] g v ∧
    (∀ s : String, v = .string s → s ≠ "" →
      inOp p g v =
        ((if g.any (fun st => st.name == s) then [s] else []), true)) ∧
    (∀ xs : List JSValue, v = .array xs →
      inOp p g v =
        (xs.filterMap (fun w =>
          match w with
          | .string s =>
              if g.any (fun st => st.name == s) then some s else none
          | _ => none), true)) ∧
    (isStringV v = false → isArrayV v = false → inOp p g v = ([], false)) ∧
    (v = .string "" → inOp p g v = ([], false)) := by
  refine ⟨rfl, ?_, ?_, ?_, ?_⟩
  · intro s hv hne
    subst hv
    have ht : truthy (.string s) = true := by
      simp [truthy, hne]
    simp only [inOp, ht, isStringV, isArrayV, Bool.not_true, Bool.or_true,
      Bool.false_or, Bool.or_false, Bool.not_false, Bool.false_eq_true, if_false]
    simp only [List.filterMap_cons, List.filterMap_nil]
    cases hg : g.any (fun st => st.name == s) <;> simp
  · intro xs hv
    subst hv
    simp [inOp, truthy, isStringV, isArrayV]
  · intro h1 h2
    unfold inOp
    rw [h1, h2]
    simp
  · intro hv
    subst hv
    rfl

/-- Witness for C7 (amended): requesting ["a", 3, "c"] against a schema
declaring only "a" keeps exactly ["a"] (the number and the undeclared name
are dropped) and returns this. -/
theorem in_behavior_witness :
    inOp [] [⟨"a", .undefined, .undefined, .undefined⟩]
      (.array [.string "a", .number 3, .string "c"]) = (["a"], true) := by
  have h := (in_behavior [] [⟨"a", .undefined, .undefined, .undefined⟩]
      (.array [.string "a", .number 3, .string "c"])).2.2.1
      [.string "a", .number 3, .string "c"] rfl
  rw [h]
  rfl

/-- The native operation performed by `IndexedJS.prototype.add`
(src/src/IndexedJS.js lines 300-344). -/
inductive AddAction : Type where
  | missingData : AddAction
  | noDb : AddAction
  | put : JSValue → AddAction

/-- `IndexedJS.prototype.add`: verify the options, error out when
`options.data` is falsy, otherwise call `objStore.put(options.data)` when
the database handle is set. -/
def addOp (dbOpen : Bool) (addOptions : JSObj) : AddAction :=
  let options := verifyOptions addOptions
  if ! truthy (assoc options "data") then .missingData
  else if dbOpen then .put (assoc options "data")
  else .noDb

theorem truthy_jsOr_array (x : JSValue) : truthy (jsOr x (.array [])) = true := by
  unfold jsOr
  split
  · assumption
  · rfl

/-- C8: the missing-data error branch of add is unreachable, because
verifyOptions defaults data to the empty array, which is truthy; add called
without data proceeds to store the empty array. -/
theorem add_missing_data_unreachable (d : Bool) (o : JSObj) :
    addOp d o ≠ .missingData ∧
    (assoc o "data" = .undefined → addOp true o = .put (.array [])) := by
  have hd : truthy (assoc (verifyOptions o) "data") = true := by
    rw [verifyOptions_data]
    exact truthy_jsOr_array _
  constructor
  · intro h
    simp only [addOp, hd, Bool.not_true, Bool.false_eq_true, if_false] at h
    cases d <;> simp at h
  · intro h
    have h2 : assoc (verifyOptions o) "data" = .array [] := by
      rw [verifyOptions_data, h]
      rfl
    simp [addOp, hd, h2, truthy]

/-- Witness for C8: add with the empty options object puts the empty
array. -/
theorem add_missing_data_unreachable_witness :
    addOp true [] = .put (.array []) :=
  (add_missing_data_unreachable true []).2 rfl

/-- Lookup in a modelled object store (records keyed by their primary
key). -/
def lookupStore {κ : Type} [DecidableEq κ] (store : List (κ × JSValue))
    (k : κ) : Option JSValue :=
  match store with
  | [] => none
  | (k', v) :: rest => if k' = k then some v else lookupStore rest k

/-- The host engine's `IDBObjectStore.put`: insert or replace the record at
the key; always succeeds (second component). -/
def nativePut {κ : Type} [DecidableEq κ] (store : List (κ × JSValue))
    (k : κ) (v : JSValue) : List (κ × JSValue) × Bool :=
  match store with
  | [] => ([(k, v)], true)
  | (k', w) :: rest =>
      if k' = k then ((k', v) :: rest, true)
      else
        let r := nativePut rest k v
        ((k', w) :: r.1, r.2)

/-- The host engine's `IDBObjectStore.add`: fails with a ConstraintError
(second component false, store unchanged) when the key already exists. -/
def nativeAdd {κ : Type} [DecidableEq κ] (store : List (κ × JSValue))
    (k : κ) (v : JSValue) : List (κ × JSValue) × Bool :=
  if (lookupStore store k).isSome then (store, false)
  else (store ++ [(k, v)], true)

theorem nativePut_found {κ : Type} [DecidableEq κ] (store : List (κ × JSValue))
    (k : κ) (v : JSValue) :
    (nativePut store k v).2 = true ∧
    lookupStore (nativePut store k v).1 k = some v := by
  induction store with
  | nil => exact ⟨rfl, by simp [nativePut, lookupStore]⟩
  | cons p rest ih =>
      obtain ⟨k', u⟩ := p
      by_cases hk : k' = k
      · simp [nativePut, lookupStore, hk]
      · simp [nativePut, lookupStore, hk, ih]

/-- C10: with the database open, add always issues the native put primitive
on the verified data (line 317 calls `objStore.put`, never `objStore.add`);
consequently, storing a record at a key that already exists replaces the
stored record and succeeds, where the native add primitive would fail with a
duplicate-key error. -/
theorem add_uses_put :
    (∀ o : JSObj, addOp true o = .put (assoc (verifyOptions o) "data")) ∧
    (∀ (store : List (Nat × JSValue)) (k : Nat) (v w : JSValue),
      lookupStore store k = some w →
        (nativePut store k v).2 = true ∧
        lookupStore (nativePut store k v).1 k = some v ∧
        (nativeAdd store k v).2 = false) := by
  constructor
  · intro o
    have hd : truthy (assoc (verifyOptions o) "data") = true := by
      rw [verifyOptions_data]
      exact truthy_jsOr_array _
    simp [addOp, hd]
  · intro store k v w h
    refine ⟨(nativePut_found store k v).1, (nativePut_found store k v).2, ?_⟩
    simp [nativeAdd, h]

/-- Witness for C10: putting at the existing key 1 succeeds and replaces the
record, while the native add primitive fails there. -/
theorem add_uses_put_witness :
    (nativePut [((1 : Nat), JSValue.string "old")] 1 (.string "new")).2 = true ∧
    lookupStore (nativePut [((1 : Nat), JSValue.string "old")] 1
      (.string "new")).1 1 = some (.string "new") ∧
    (nativeAdd [((1 : Nat), JSValue.string "old")] 1 (.string "new")).2 = false :=
  add_uses_put.2 [((1 : Nat), JSValue.string "old")] 1 (.string "new")
    (.string "old") rfl

end IndexedJS
